import Mathlib

/-!
Verification of the Apple Notes MCP server (`src/apple_notes_mcp/server.py`)
against its natural-language specification.

The Python module is shallowly embedded below.  The external `osascript`
interpreter is modelled as an oracle (`Interp`): a function from the rendered
script text to an exit outcome.  `subprocess.run(..., check=True)` is modelled
by `run_applescript` / `run_jxa` returning `Except CalledProcessError`; the
`call_tool` dispatcher is modelled by `callTool`, which also records the argv
of every child process it spawns (`CallOut.trace`), so that "no retry" and
"which script was rendered" are provable.

Python exceptions that the handler does not catch (`KeyError` from
`arguments["..."]`, `TypeError` from dynamically-typed operations on decoded
JSON) surface as `Except.error`; exceptions caught by a branch are turned into
ordinary text blocks exactly as the source does.
-/

/-! ## Python string primitives -/

/-- The apostrophe character (used to stay close to Python string literals). -/
def aposChar : Char := Char.ofNat 39

/-- The left-brace character. -/
def lbrace : Char := Char.ofNat 123

/-- The right-brace character. -/
def rbrace : Char := Char.ofNat 125

/-- Whitespace stripped by Python `str.strip()` (ASCII range; the server only
ever strips interpreter output, which is ASCII-compatible text). -/
def pyIsSpace (c : Char) : Bool :=
  c = ' ' || c = '\t' || c = '\n' || c = '\r' || c = '\x0b' || c = '\x0c'

/-- Python `s.strip()`. -/
def pyStrip (s : String) : String :=
  String.mk (((s.toList.dropWhile pyIsSpace).reverse.dropWhile pyIsSpace).reverse)

/-- Python `s.replace('"', '\\"')` — the only escaping the server performs
(`note_name_escaped` / `note_body_escaped` in the create/edit branches). -/
def escapeQuotes (s : String) : String :=
  String.mk ((s.toList.map (fun c => if c = '"' then ['\\', '"'] else [c])).flatten)

/-- Python `s.lower()` (ASCII case folding; Unicode case folding of
`str.lower` beyond ASCII is not modelled). -/
def pyLower (s : String) : String :=
  String.mk (s.toList.map Char.toLower)

/-- Decides whether `needle` is a prefix of `hay` (over char lists). -/
def startsWithL : List Char → List Char → Bool
  | _, [] => true
  | [], _ :: _ => false
  | a :: as, b :: bs => if a = b then startsWithL as bs else false

/-- Decides whether `needle` occurs contiguously inside `hay`. -/
def containsL : List Char → List Char → Bool
  | [], needle => startsWithL [] needle
  | hay@(_ :: t), needle => startsWithL hay needle || containsL t needle

/-- Substring occurrence on strings ("the error text embeds the stderr"). -/
def strContains (hay needle : String) : Bool :=
  containsL hay.toList needle.toList

/-- Python `repr` of one character inside a string repr with quote
character `q`.  (Control characters other than tab/newline/return do not
occur in the strings this server manipulates and are not modelled.) -/
def pyReprChar (q : Char) (c : Char) : String :=
  if c = '\\' then "\\\\"
  else if c = q then String.mk ['\\', q]
  else if c = '\n' then "\\n"
  else if c = '\r' then "\\r"
  else if c = '\t' then "\\t"
  else String.mk [c]

/-- Python `repr` of a string: single-quoted, unless the string contains a
single quote and no double quote, in which case it is double-quoted. -/
def pyReprStr (s : String) : String :=
  let q : Char :=
    if s.toList.contains aposChar && !(s.toList.contains '"') then '"' else aposChar
  String.mk [q] ++ String.join (s.toList.map (pyReprChar q)) ++ String.mk [q]

/-- Python `str` of a list of strings: `[repr(x), ...]`. -/
def pyStrList (xs : List String) : String :=
  "[" ++ String.intercalate ", " (xs.map pyReprStr) ++ "]"

/-- Names of the POSIX signals as `signal.Signals` knows them on the host
(used by `CalledProcessError.__str__` for negative return codes). -/
def pySignalName (n : Int) : Option String :=
  if n = 1 then some "SIGHUP" else if n = 2 then some "SIGINT"
  else if n = 3 then some "SIGQUIT" else if n = 4 then some "SIGILL"
  else if n = 5 then some "SIGTRAP" else if n = 6 then some "SIGABRT"
  else if n = 7 then some "SIGBUS" else if n = 8 then some "SIGFPE"
  else if n = 9 then some "SIGKILL" else if n = 10 then some "SIGUSR1"
  else if n = 11 then some "SIGSEGV" else if n = 12 then some "SIGUSR2"
  else if n = 13 then some "SIGPIPE" else if n = 14 then some "SIGALRM"
  else if n = 15 then some "SIGTERM" else none

/-! ## The process-execution model -/

/-- Outcome of one `osascript` child process: captured stdout on exit 0,
captured stderr (with the nonzero exit status) otherwise. -/
inductive ExecResult where
  | success (stdout : String)
  | failure (returncode : Int) (stderr : String)

/-- The external automation interpreter, as an oracle from the rendered
script text to the process outcome.  `applescript` models
`osascript -e <script>`, `jxa` models `osascript -l JavaScript -e <script>`. -/
structure Interp where
  applescript : String → ExecResult
  jxa : String → ExecResult

/-- Model of `subprocess.CalledProcessError` (the fields the server reads). -/
structure CalledProcessError where
  cmd : List String
  returncode : Int
  stderr : String

/-- Python `str(e)` for `e : CalledProcessError`
(`"Command '%s' returned non-zero exit status %d."`, resp. the
`died with %r` form for negative return codes). -/
def pyStrCPE (e : CalledProcessError) : String :=
  if e.returncode < 0 then
    match pySignalName (-e.returncode) with
    | some sig =>
        "Command " ++ String.mk [aposChar] ++ pyStrList e.cmd ++ String.mk [aposChar]
          ++ " died with <Signals." ++ sig ++ ": " ++ toString (-e.returncode) ++ ">."
    | none =>
        "Command " ++ String.mk [aposChar] ++ pyStrList e.cmd ++ String.mk [aposChar]
          ++ " died with unknown signal " ++ toString (-e.returncode) ++ "."
  else
    "Command " ++ String.mk [aposChar] ++ pyStrList e.cmd ++ String.mk [aposChar]
      ++ " returned non-zero exit status " ++ toString e.returncode ++ "."

/-- Python exceptions that can escape or be caught inside `call_tool`. -/
inductive PyErr where
  | cpe (e : CalledProcessError)
  | jsonDecode (msg : String)
  | keyError (key : String)
  | typeError (msg : String)

/-- argv of `osascript -e script`. -/
def osaCmd (script : String) : List String := ["osascript", "-e", script]

/-- argv of `osascript -l JavaScript -e script`. -/
def jxaCmd (script : String) : List String :=
  ["osascript", "-l", "JavaScript", "-e", script]

/-- `run_applescript`: run the script, return `result.stdout.strip()`;
`check=True` raises `CalledProcessError` on nonzero exit. -/
def run_applescript (interp : Interp) (script : String) :
    Except CalledProcessError String :=
  match interp.applescript script with
  | ExecResult.success out => Except.ok (pyStrip out)
  | ExecResult.failure rc err => Except.error ⟨osaCmd script, rc, err⟩

/-- `run_jxa`: as `run_applescript` but with the JavaScript dialect flag. -/
def run_jxa (interp : Interp) (script : String) :
    Except CalledProcessError String :=
  match interp.jxa script with
  | ExecResult.success out => Except.ok (pyStrip out)
  | ExecResult.failure rc err => Except.error ⟨jxaCmd script, rc, err⟩

/-! ## Protocol data model -/

/-- `mcp.types.TextContent` (the only content-block kind the server emits). -/
structure TextContent where
  type : String
  text : String

/-- One parameter entry of an `inputSchema.properties` object. -/
structure ToolParam where
  name : String
  type : String
  description : String

/-- An `inputSchema` object (`"type": "object"` plus properties/required;
a schema with no `"required"` key is modelled with `required = []`). -/
structure ToolSchema where
  type : String
  properties : List ToolParam
  required : List String

/-- `mcp.types.Tool`: one ToolDescriptor of the catalog. -/
structure Tool where
  name : String
  description : String
  inputSchema : ToolSchema

/-- The argument mapping of an invocation request (a JSON object of string
parameter values; key order irrelevant, first binding wins as in a dict). -/
def ArgMap := List (String × String)

/-- Python `arguments.get(k)` — `none` when the key is absent. -/
def getArg (args : ArgMap) (k : String) : Option String :=
  (List.find? (fun p => p.1 = k) args).map (fun p => p.2)

/-- Python `arguments.get(k, d)`. -/
def getArgD (args : ArgMap) (k d : String) : String :=
  (getArg args k).getD d

/-! ## The tool catalog (`list_tools`) -/

/-- The fixed catalog returned by `list_tools`. -/
def list_tools : List Tool :=
  [ { name := "list_notes"
      description :=
        "List all notes with their names, folders, and creation/modification dates"
      inputSchema :=
        { type := "object"
          properties :=
            [⟨"folder", "string", "Optional: filter by folder name"⟩]
          required := [] } }
  , { name := "search_notes"
      description := "Search notes by text in title or body"
      inputSchema :=
        { type := "object"
          properties :=
            [⟨"query", "string",
              "Search query to find in note titles or content"⟩]
          required := ["query"] } }
  , { name := "read_note"
      description := "Read the full content of a specific note by name or ID"
      inputSchema :=
        { type := "object"
          properties :=
            [⟨"name", "string", "The name/title of the note to read"⟩]
          required := ["name"] } }
  , { name := "create_note"
      description := "Create a new note with specified content"
      inputSchema :=
        { type := "object"
          properties :=
            [ ⟨"name", "string", "The title of the new note"⟩
            , ⟨"body", "string", "The content of the new note"⟩
            , ⟨"folder", "string",
               "Optional: folder to create the note in (defaults to 'Notes')"⟩ ]
          required := ["name", "body"] } }
  , { name := "edit_note"
      description := "Edit an existing note's content"
      inputSchema :=
        { type := "object"
          properties :=
            [ ⟨"name", "string", "The name/title of the note to edit"⟩
            , ⟨"body", "string", "The new content for the note"⟩ ]
          required := ["name", "body"] } } ]

/-! ## The rendered automation scripts

Each definition reproduces, character for character, the (f-)string template
of the corresponding branch of `call_tool`; `++` marks exactly the f-string
substitution holes.  Literal braces of the templates are written `\x7b`/`\x7d`.
-/

/-- The fixed AppleScript of the `list_notes` branch (a plain string —
no substitution holes at all). -/
def listNotesScript : String :=
  "\n        tell application \"Notes\"\n            set notesList to \x7b\x7d\n            set allNotes to every note\n            repeat with aNote in allNotes\n                set noteInfo to \x7b|name|:name of aNote, |folder|:name of container of aNote, |creationDate|:creation date of aNote as string, |modificationDate|:modification date of aNote as string\x7d\n                set end of notesList to noteInfo\n            end repeat\n            return notesList\n        end tell\n        "

/-- The JXA script of the `search_notes` branch; `query.lower()` is
substituted verbatim (unescaped) into two quoted positions. -/
def searchScript (query : String) : String :=
  "\n        const notes = Application('Notes');\n        const allNotes = notes.notes();\n        const results = [];\n\n        for (let note of allNotes) \x7b\n            const name = note.name();\n            const body = note.body();\n\n            if (name.toLowerCase().includes('" ++ pyLower query ++
  "') ||\n                body.toLowerCase().includes('" ++ pyLower query ++
  "')) \x7b\n                results.push(\x7b\n                    name: name,\n                    folder: note.container().name(),\n                    preview: body.substring(0, 200)\n                \x7d);\n            \x7d\n        \x7d\n\n        JSON.stringify(results);\n        "

/-- The AppleScript of the `read_note` branch; `note_name` is substituted
verbatim (unescaped) into a double-quoted position. -/
def readNoteScript (note_name : String) : String :=
  "\n        tell application \"Notes\"\n            set matchingNotes to (every note whose name is \"" ++ note_name ++
  "\")\n            if (count of matchingNotes) > 0 then\n                set theNote to item 1 of matchingNotes\n                return body of theNote\n            else\n                return \"Note not found\"\n            end if\n        end tell\n        "

/-- The AppleScript of the `create_note` branch; the name and body holes
receive the quote-escaped values, the folder hole receives the raw value. -/
def createNoteScript (folder_name note_name_escaped note_body_escaped : String) : String :=
  "\n        tell application \"Notes\"\n            tell account \"iCloud\"\n                -- Try to find the folder, create if it doesn't exist\n                set targetFolder to folder \"" ++ folder_name ++
  "\"\n\n                -- Create the note\n                set newNote to make new note at targetFolder with properties \x7bname:\"" ++ note_name_escaped ++
  "\", body:\"" ++ note_body_escaped ++
  "\"\x7d\n                return name of newNote\n            end tell\n        end tell\n        "

/-- The AppleScript of the `edit_note` branch; the name hole receives the raw
value, the body hole the quote-escaped one. -/
def editNoteScript (note_name note_body_escaped : String) : String :=
  "\n        tell application \"Notes\"\n            set matchingNotes to (every note whose name is \"" ++ note_name ++
  "\")\n            if (count of matchingNotes) > 0 then\n                set theNote to item 1 of matchingNotes\n                set body of theNote to \"" ++ note_body_escaped ++
  "\"\n                return \"Note updated: \" & name of theNote\n            else\n                return \"Note not found\"\n            end if\n        end tell\n        "

/-! ## A model of `json.loads`

The `search_notes` branch decodes the interpreter output with `json.loads`.
A small executable JSON reader is defined here (values are kept as parsed;
numbers keep their source lexeme, since the branch never computes with them).
CPython details that the claims never touch are simplified and noted in
place: decoder error messages carry no line/column rendering, `\uXXXX`
surrogate pairs are not recombined, and control characters inside string
literals are accepted. -/

/-- A decoded JSON value (Python-side view after `json.loads`). -/
inductive Json where
  | null
  | bool (b : Bool)
  | num (lexeme : String)
  | str (s : String)
  | arr (elems : List Json)
  | obj (fields : List (String × Json))

/-- JSON insignificant whitespace. -/
def jsonWs (c : Char) : Bool :=
  c = ' ' || c = '\t' || c = '\n' || c = '\r'

/-- Value of one hex digit (codepoint ranges 0-9, a-f, A-F). -/
def hexVal (c : Char) : Option Nat :=
  let n := c.toNat
  if 48 ≤ n && n ≤ 57 then some (n - 48)
  else if 97 ≤ n && n ≤ 102 then some (n - 87)
  else if 65 ≤ n && n ≤ 70 then some (n - 55)
  else none

/-- Parse the remainder of a JSON string literal (the opening quote has been
consumed); returns the decoded characters and the unconsumed input. -/
def parseJString : List Char → Except String (List Char × List Char)
  | [] => Except.error "Unterminated string"
  | '"' :: rest => Except.ok ([], rest)
  | '\\' :: 'u' :: a :: b :: c :: d :: rest =>
    (match hexVal a, hexVal b, hexVal c, hexVal d with
     | some ha, some hb, some hc, some hd =>
       (parseJString rest).map
         (fun p => (Char.ofNat (((ha * 16 + hb) * 16 + hc) * 16 + hd) :: p.1, p.2))
     | _, _, _, _ => Except.error "Invalid \\uXXXX escape")
  | '\\' :: e :: rest =>
    (match (if e = '"' then some '"' else if e = '\\' then some '\\'
            else if e = '/' then some '/' else if e = 'b' then some (Char.ofNat 8)
            else if e = 'f' then some (Char.ofNat 12) else if e = 'n' then some '\n'
            else if e = 'r' then some '\r' else if e = 't' then some '\t'
            else none) with
     | some ch => (parseJString rest).map (fun p => (ch :: p.1, p.2))
     | none => Except.error "Invalid \\escape")
  | '\\' :: [] => Except.error "Unterminated string"
  | c :: rest => (parseJString rest).map (fun p => (c :: p.1, p.2))

/-- Parse a JSON number at the head of the input, following the grammar of
CPython's `NUMBER_RE` (`-?(0|[1-9]\d*)(\.\d+)?([eE][-+]?\d+)?`); returns the
matched lexeme. -/
def parseJNumber (cs : List Char) : Except String (String × List Char) :=
  let signAnd : List Char × List Char :=
    match cs with
    | '-' :: r => (['-'], r)
    | _ => ([], cs)
  match signAnd.2 with
  | [] => Except.error "Expecting value"
  | c :: r =>
    if !c.isDigit then Except.error "Expecting value" else
    let ipartRest : List Char × List Char :=
      if c = '0' then (['0'], r)
      else (signAnd.2.takeWhile Char.isDigit, signAnd.2.dropWhile Char.isDigit)
    let fpartRest : List Char × List Char :=
      match ipartRest.2 with
      | '.' :: r2 =>
        let ds := r2.takeWhile Char.isDigit
        if ds.isEmpty then ([], ipartRest.2)
        else ('.' :: ds, r2.dropWhile Char.isDigit)
      | _ => ([], ipartRest.2)
    let epartRest : List Char × List Char :=
      match fpartRest.2 with
      | e :: r2 =>
        if e = 'e' || e = 'E' then
          let sgnRest : List Char × List Char :=
            match r2 with
            | s :: r3 => if s = '+' || s = '-' then ([s], r3) else ([], r2)
            | [] => ([], r2)
          let ds := sgnRest.2.takeWhile Char.isDigit
          if ds.isEmpty then ([], fpartRest.2)
          else (e :: (sgnRest.1 ++ ds), sgnRest.2.dropWhile Char.isDigit)
        else ([], fpartRest.2)
      | [] => ([], fpartRest.2)
    Except.ok
      (String.mk (signAnd.1 ++ ipartRest.1 ++ fpartRest.1 ++ epartRest.1),
       epartRest.2)

mutual

/-- Parse one JSON value (fuel-indexed; `jsonLoads` supplies ample fuel). -/
def parseJValue : Nat → List Char → Except String (Json × List Char)
  | 0, _ => Except.error "Expecting value"
  | Nat.succ fuel, cs =>
    match cs.dropWhile jsonWs with
    | [] => Except.error "Expecting value"
    | 'n' :: 'u' :: 'l' :: 'l' :: rest => Except.ok (Json.null, rest)
    | 't' :: 'r' :: 'u' :: 'e' :: rest => Except.ok (Json.bool true, rest)
    | 'f' :: 'a' :: 'l' :: 's' :: 'e' :: rest => Except.ok (Json.bool false, rest)
    | '"' :: rest =>
      (parseJString rest).map (fun p => (Json.str (String.mk p.1), p.2))
    | '[' :: rest =>
      (match rest.dropWhile jsonWs with
       | ']' :: rest2 => Except.ok (Json.arr [], rest2)
       | other => (parseJItems fuel other).map (fun p => (Json.arr p.1, p.2)))
    | c :: rest =>
      if c = lbrace then
        (match rest.dropWhile jsonWs with
         | c2 :: rest2 =>
           if c2 = rbrace then Except.ok (Json.obj [], rest2)
           else (parseJFields fuel (c2 :: rest2)).map (fun p => (Json.obj p.1, p.2))
         | [] => Except.error "Expecting property name enclosed in double quotes")
      else if c.isDigit || c = '-' then
        (parseJNumber (c :: rest)).map (fun p => (Json.num p.1, p.2))
      else Except.error "Expecting value"

/-- Parse the comma-separated elements of a (nonempty) JSON array, up to and
including the closing bracket. -/
def parseJItems : Nat → List Char → Except String (List Json × List Char)
  | 0, _ => Except.error "Expecting value"
  | Nat.succ fuel, cs =>
    match parseJValue fuel cs with
    | Except.error e => Except.error e
    | Except.ok (v, rest) =>
      match rest.dropWhile jsonWs with
      | ',' :: rest2 => (parseJItems fuel rest2).map (fun p => (v :: p.1, p.2))
      | ']' :: rest2 => Except.ok ([v], rest2)
      | _ => Except.error "Expecting delimiter"

/-- Parse the comma-separated members of a (nonempty) JSON object, up to and
including the closing brace. -/
def parseJFields : Nat → List Char →
    Except String (List (String × Json) × List Char)
  | 0, _ => Except.error "Expecting property name enclosed in double quotes"
  | Nat.succ fuel, cs =>
    match cs.dropWhile jsonWs with
    | '"' :: rest =>
      (match parseJString rest with
       | Except.error e => Except.error e
       | Except.ok (key, rest1) =>
         (match rest1.dropWhile jsonWs with
          | ':' :: rest2 =>
            (match parseJValue fuel rest2 with
             | Except.error e => Except.error e
             | Except.ok (v, rest3) =>
               (match rest3.dropWhile jsonWs with
                | ',' :: rest4 =>
                  (parseJFields fuel rest4).map
                    (fun p => ((String.mk key, v) :: p.1, p.2))
                | c :: rest4 =>
                  if c = rbrace then Except.ok ([(String.mk key, v)], rest4)
                  else Except.error "Expecting delimiter"
                | [] => Except.error "Expecting delimiter"))
          | _ => Except.error "Expecting delimiter"))
    | _ => Except.error "Expecting property name enclosed in double quotes"

end

/-- `json.loads`: parse a complete document, rejecting trailing data. -/
def jsonLoads (s : String) : Except String Json :=
  match parseJValue (2 * s.length + 2) s.toList with
  | Except.error e => Except.error e
  | Except.ok (v, rest) =>
    if (rest.dropWhile jsonWs).isEmpty then Except.ok v
    else Except.error "Extra data"

/-! ## Python dynamic operations on decoded JSON values

The `search_notes` branch manipulates the decoded value with plain Python
operations (`not`, `len`, iteration, `[...]` subscripting, `[:100]` slicing,
f-string `str()`); each is modelled on `Json`, raising `TypeError`/`KeyError`
exactly where CPython would. -/

/-- Whether a JSON number lexeme denotes zero (its mantissa has no nonzero
digit). -/
def jsonNumIsZero (lexeme : String) : Bool :=
  ((lexeme.toList.takeWhile (fun c => c ≠ 'e' && c ≠ 'E')).filter
    (fun c => c ≠ '-' && c ≠ '.')).all (fun c => c = '0')

/-- Python truthiness of a decoded JSON value. -/
def pyTruthy : Json → Bool
  | Json.null => false
  | Json.bool b => b
  | Json.num lexeme => !(jsonNumIsZero lexeme)
  | Json.str s => !(s = "")
  | Json.arr xs => !xs.isEmpty
  | Json.obj kvs => !kvs.isEmpty

/-- The Python type name of a decoded JSON value (for `TypeError` texts). -/
def pyTypeName : Json → String
  | Json.null => "NoneType"
  | Json.bool _ => "bool"
  | Json.num lexeme =>
      if lexeme.toList.any (fun c => c = '.' || c = 'e' || c = 'E')
      then "float" else "int"
  | Json.str _ => "str"
  | Json.arr _ => "list"
  | Json.obj _ => "dict"

/-- Python `len` on a decoded JSON value.  Duplicate keys of a JSON object
collapse in the dict `json.loads` builds, hence the key dedup. -/
def pyLen : Json → Except PyErr Nat
  | Json.str s => Except.ok s.length
  | Json.arr xs => Except.ok xs.length
  | Json.obj kvs => Except.ok ((kvs.map Prod.fst).eraseDups.length)
  | j => Except.error (PyErr.typeError ("object of type " ++ pyTypeName j ++ " has no len()"))

/-- Dict lookup after `json.loads`: for duplicate JSON keys the last binding
wins (later pairs overwrite earlier ones when the dict is built). -/
def dictGet (kvs : List (String × Json)) (k : String) : Option Json :=
  (List.find? (fun p => p.1 = k) kvs.reverse).map (fun p => p.2)

/-- Python iteration over a decoded JSON value (`for match in matches`).
Iterating a dict yields its keys in first-insertion order. -/
def pyIter : Json → Except PyErr (List Json)
  | Json.str s => Except.ok (s.toList.map (fun c => Json.str (String.mk [c])))
  | Json.arr xs => Except.ok xs
  | Json.obj kvs => Except.ok (((kvs.map Prod.fst).eraseDups).map Json.str)
  | j => Except.error (PyErr.typeError (pyTypeName j ++ " object is not iterable"))

/-- Python subscripting with a string key (`match['name']`). -/
def pySubscript (m : Json) (k : String) : Except PyErr Json :=
  match m with
  | Json.obj kvs =>
    (match dictGet kvs k with
     | some v => Except.ok v
     | none => Except.error (PyErr.keyError k))
  | Json.str _ => Except.error (PyErr.typeError "string indices must be integers")
  | Json.arr _ =>
      Except.error (PyErr.typeError "list indices must be integers or slices, not str")
  | j => Except.error (PyErr.typeError (pyTypeName j ++ " object is not subscriptable"))

/-- Python slicing `x[:100]` (`match['preview'][:100]`). -/
def pySliceTo100 : Json → Except PyErr Json
  | Json.str s => Except.ok (Json.str (String.mk (s.toList.take 100)))
  | Json.arr xs => Except.ok (Json.arr (xs.take 100))
  | j => Except.error (PyErr.typeError (pyTypeName j ++ " object is not subscriptable"))

mutual

/-- Python `repr` of a decoded JSON value.  This pretty-printer is reached
only for container values inside an f-string hole, a path no theorem below
exercises; float repr normalization (`1.50` printing as `1.5`) and
duplicate-key collapse inside the rendered dict are not modelled here. -/
def pyReprJson : Json → String
  | Json.null => "None"
  | Json.bool true => "True"
  | Json.bool false => "False"
  | Json.num lexeme => lexeme
  | Json.str s => pyReprStr s
  | Json.arr xs => "[" ++ String.intercalate ", " (pyReprJsonList xs) ++ "]"
  | Json.obj kvs =>
      String.mk [lbrace] ++ String.intercalate ", " (pyReprJsonFields kvs) ++
        String.mk [rbrace]

/-- `repr` of each element of a JSON array. -/
def pyReprJsonList : List Json → List String
  | [] => []
  | j :: rest => pyReprJson j :: pyReprJsonList rest

/-- `repr` of each member of a JSON object. -/
def pyReprJsonFields : List (String × Json) → List String
  | [] => []
  | (k, v) :: rest => (pyReprStr k ++ ": " ++ pyReprJson v) :: pyReprJsonFields rest

end

/-- Python `str()` of a decoded JSON value, as an f-string renders it. -/
def pyStrJson (j : Json) : String :=
  match j with
  | Json.str s => s
  | Json.null => "None"
  | Json.bool true => "True"
  | Json.bool false => "False"
  | Json.num lexeme => lexeme
  | other => pyReprJson other

/-! ## The `call_tool` dispatcher -/

/-- Result of one `call_tool` invocation: the protocol-level outcome (an
escaped Python exception, or the returned content blocks) together with the
argv of every child process that was spawned. -/
structure CallOut where
  result : Except PyErr (List TextContent)
  trace : List (List String)

/-- The `list_notes` branch.  `notes` reproduces the dead record-splitting
loop of the source (computed, then never used). -/
def listNotesBranch (interp : Interp) (arguments : ArgMap) : CallOut :=
  let folder_filter := getArgD arguments "folder" ""
  let script := listNotesScript
  match run_applescript interp script with
  | Except.ok result =>
    let notes : List String :=
      if result ≠ "" then
        ((result.splitOn ", |name|:").map pyStrip).filter (fun l => l ≠ "")
      else []
    let result_text :=
      if folder_filter ≠ "" then
        "Notes in folder '" ++ folder_filter ++ "':\n" ++ result
      else "All notes:\n" ++ result
    { result := Except.ok [⟨"text", result_text⟩], trace := [osaCmd script] }
  | Except.error e =>
    { result := Except.ok [⟨"text", "Error listing notes: " ++ e.stderr⟩]
      trace := [osaCmd script] }

/-- One iteration of the `search_notes` formatting loop: the two
`formatted += f"..."` lines for one match. -/
def formatMatch (m : Json) : Except PyErr String :=
  match pySubscript m "name" with
  | Except.error e => Except.error e
  | Except.ok nm =>
    (match pySubscript m "folder" with
     | Except.error e => Except.error e
     | Except.ok fo =>
       (match pySubscript m "preview" with
        | Except.error e => Except.error e
        | Except.ok pv =>
          (match pySliceTo100 pv with
           | Except.error e => Except.error e
           | Except.ok pvs =>
             Except.ok
               ("â€¢ " ++ pyStrJson nm ++ " (in " ++ pyStrJson fo ++
                ")\n" ++ "  Preview: " ++ pyStrJson pvs ++ "...\n\n"))))

/-- The `for match in matches` loop accumulating `formatted`. -/
def formatLoop : List Json → String → Except PyErr String
  | [], acc => Except.ok acc
  | m :: rest, acc =>
    match formatMatch m with
    | Except.error e => Except.error e
    | Except.ok piece => formatLoop rest (acc ++ piece)

/-- The `try:` body of the `search_notes` branch (everything the
`except (CalledProcessError, JSONDecodeError)` clause guards). -/
def searchTryBody (interp : Interp) (query : String) : Except PyErr (List TextContent) :=
  match run_jxa interp (searchScript query) with
  | Except.error e => Except.error (PyErr.cpe e)
  | Except.ok result =>
    match (if result ≠ "" then (jsonLoads result).mapError PyErr.jsonDecode
           else Except.ok (Json.arr [])) with
    | Except.error e => Except.error e
    | Except.ok matchesJ =>
      if !(pyTruthy matchesJ) then
        Except.ok [⟨"text", "No notes found matching '" ++ query ++ "'"⟩]
      else
        match pyLen matchesJ with
        | Except.error e => Except.error e
        | Except.ok n =>
          match pyIter matchesJ with
          | Except.error e => Except.error e
          | Except.ok items =>
            match formatLoop items
                ("Found " ++ toString n ++ " note(s) matching '" ++ query ++ "':\n\n") with
            | Except.error e => Except.error e
            | Except.ok formatted => Except.ok [⟨"text", formatted⟩]

/-- The `search_notes` branch: the try body with its two caught exception
kinds turned into text blocks (`f"Error searching notes: {str(e)}"`); other
exceptions propagate.  (Decoder error texts omit CPython's line/column
rendering, see `jsonLoads`.) -/
def searchBranch (interp : Interp) (query : String) : CallOut :=
  let tr := [jxaCmd (searchScript query)]
  match searchTryBody interp query with
  | Except.ok blocks => { result := Except.ok blocks, trace := tr }
  | Except.error (PyErr.cpe e) =>
    { result := Except.ok [⟨"text", "Error searching notes: " ++ pyStrCPE e⟩]
      trace := tr }
  | Except.error (PyErr.jsonDecode msg) =>
    { result := Except.ok [⟨"text", "Error searching notes: " ++ msg⟩]
      trace := tr }
  | Except.error e => { result := Except.error e, trace := tr }

/-- The `read_note` branch. -/
def readNoteBranch (interp : Interp) (note_name : String) : CallOut :=
  let script := readNoteScript note_name
  match run_applescript interp script with
  | Except.ok result =>
    { result := Except.ok [⟨"text", "Note: " ++ note_name ++ "\n\n" ++ result⟩]
      trace := [osaCmd script] }
  | Except.error e =>
    { result := Except.ok [⟨"text", "Error reading note: " ++ e.stderr⟩]
      trace := [osaCmd script] }

/-- The `create_note` branch. -/
def createNoteBranch (interp : Interp) (note_name note_body folder_name : String) :
    CallOut :=
  let note_name_escaped := escapeQuotes note_name
  let note_body_escaped := escapeQuotes note_body
  let script := createNoteScript folder_name note_name_escaped note_body_escaped
  match run_applescript interp script with
  | Except.ok result =>
    { result := Except.ok [⟨"text", "Successfully created note: " ++ result⟩]
      trace := [osaCmd script] }
  | Except.error e =>
    { result := Except.ok [⟨"text", "Error creating note: " ++ e.stderr⟩]
      trace := [osaCmd script] }

/-- The `edit_note` branch. -/
def editNoteBranch (interp : Interp) (note_name note_body : String) : CallOut :=
  let note_body_escaped := escapeQuotes note_body
  let script := editNoteScript note_name note_body_escaped
  match run_applescript interp script with
  | Except.ok result =>
    { result := Except.ok [⟨"text", result⟩], trace := [osaCmd script] }
  | Except.error e =>
    { result := Except.ok [⟨"text", "Error editing note: " ++ e.stderr⟩]
      trace := [osaCmd script] }

/-- `call_tool`: dispatch on the tool name.  `arguments["k"]` raises
`KeyError` (an escaped exception, no process spawned) when the key is
absent. -/
def callTool (interp : Interp) (name : String) (arguments : ArgMap) : CallOut :=
  if name = "list_notes" then listNotesBranch interp arguments
  else if name = "search_notes" then
    match getArg arguments "query" with
    | none => { result := Except.error (PyErr.keyError "query"), trace := [] }
    | some query => searchBranch interp query
  else if name = "read_note" then
    match getArg arguments "name" with
    | none => { result := Except.error (PyErr.keyError "name"), trace := [] }
    | some note_name => readNoteBranch interp note_name
  else if name = "create_note" then
    match getArg arguments "name" with
    | none => { result := Except.error (PyErr.keyError "name"), trace := [] }
    | some note_name =>
      match getArg arguments "body" with
      | none => { result := Except.error (PyErr.keyError "body"), trace := [] }
      | some note_body =>
        createNoteBranch interp note_name note_body (getArgD arguments "folder" "Notes")
  else if name = "edit_note" then
    match getArg arguments "name" with
    | none => { result := Except.error (PyErr.keyError "name"), trace := [] }
    | some note_name =>
      match getArg arguments "body" with
      | none => { result := Except.error (PyErr.keyError "body"), trace := [] }
      | some note_body => editNoteBranch interp note_name note_body
  else { result := Except.ok [⟨"text", "Unknown tool: " ++ name⟩], trace := [] }

/-! ## Modelled external semantics

The behaviour of the Notes application against the rendered scripts is not
part of this repository; where a claim depends on it, the script evaluation
is modelled from the specification and linked to `callTool` through an
explicit hypothesis on the `Interp` oracle. -/

/-- A note as the external application holds it. -/
structure Note where
  name : String
  body : String

/-- Modelled from the spec: the interpreter's evaluation of the read-note
script against the application's note list — exact-name lookup over all
notes, first match wins (`every note whose name is "..."`, `item 1`), and the
script's own `"Note not found"` sentinel on stdout when nothing matches. -/
def runReadNoteScript (notes : List Note) (target : String) : ExecResult :=
  match notes.filter (fun x => x.name = target) with
  | [] => ExecResult.success "Note not found"
  | n :: _ => ExecResult.success n.body

/-- The note store of the fixed `"iCloud"` account: its folder names and its
notes (each tagged with the folder holding it). -/
structure NotesStore where
  folders : List String
  notes : List (String × Note)

/-- Modelled from the spec: the diagnostic stderr the interpreter emits when
the create-note script addresses a folder absent from the account. -/
def createFolderMissingDiag (folder : String) : String :=
  "execution error: Notes got an error: Can’t get folder \"" ++ folder ++
    "\" of account \"iCloud\". (-1728)"

/-- Modelled from the spec: the interpreter's evaluation of the create-note
script — it requires a pre-existing target folder inside the fixed
`"iCloud"` account; when the folder is absent it exits nonzero without
creating anything; otherwise it appends the note and prints the created
note's resolved name (the interpreter's string lexer undoes the `\"`
escaping, so the name is the original parameter). -/
def runCreateNoteScript (store : NotesStore) (folder name body : String) :
    ExecResult × NotesStore :=
  if folder ∈ store.folders then
    (ExecResult.success name,
     { folders := store.folders, notes := store.notes ++ [(folder, ⟨name, body⟩)] })
  else
    (ExecResult.failure 1 (createFolderMissingDiag folder), store)

/-! ## AppleScript quote structure

To state the injection claim, a scanner over the rendered script counts its
double-quoted string literals, honouring the `\"` escape; `none` means the
scan ends inside an unterminated literal (the script's operation boundary
was destroyed). -/

/-- Counts completed string literals; `inStr` says whether the scan head is
inside a literal.  Backslash escapes the following character inside a
literal. -/
def asLiteralScan : List Char → Bool → Option Nat
  | [], inStr => if inStr then none else some 0
  | '\\' :: _ :: rest, true => asLiteralScan rest true
  | '"' :: rest, true => (asLiteralScan rest false).map (fun n => n + 1)
  | '"' :: rest, false => asLiteralScan rest true
  | _ :: rest, inStr => asLiteralScan rest inStr

/-- Number of complete double-quoted literals of a script, or `none` when a
literal is left unterminated. -/
def asLiteralCount (s : String) : Option Nat :=
  asLiteralScan s.toList false

/-! ## Auxiliary definitions for the claim statements -/

/-- An interpreter oracle answering every script with the same outcome. -/
def constInterp (r : ExecResult) : Interp :=
  { applescript := fun _ => r, jxa := fun _ => r }

/-- The header line the `list_notes` branch puts above the raw interpreter
output. -/
def listHeader (folder_filter : String) : String :=
  if folder_filter ≠ "" then "Notes in folder '" ++ folder_filter ++ "':"
  else "All notes:"

/-- The arguments mapping contains every parameter the named tool reads with
`arguments["..."]`. -/
def requiredPresent (name : String) (args : ArgMap) : Prop :=
  (name = "search_notes" → (getArg args "query").isSome = true) ∧
  (name = "read_note" → (getArg args "name").isSome = true) ∧
  (name = "create_note" →
    (getArg args "name").isSome = true ∧ (getArg args "body").isSome = true) ∧
  (name = "edit_note" →
    (getArg args "name").isSome = true ∧ (getArg args "body").isSome = true)

/-- A decoded match record of the shape the JXA script produces: an object
whose `name`, `folder` and `preview` members are strings. -/
def conformingMatch (m : Json) : Bool :=
  match m with
  | Json.obj kvs =>
    (match dictGet kvs "name" with
     | some (Json.str _) => true
     | _ => false) &&
    (match dictGet kvs "folder" with
     | some (Json.str _) => true
     | _ => false) &&
    (match dictGet kvs "preview" with
     | some (Json.str _) => true
     | _ => false)
  | _ => false

/-- The `search_notes` interpreter outcome follows the external contract:
the process fails, or its output is empty, fails to decode, or decodes to an
array of conforming match records. -/
def searchOutOK (r : ExecResult) : Prop :=
  match r with
  | ExecResult.failure _ _ => True
  | ExecResult.success out =>
      pyStrip out = "" ∨
      (∃ msg, jsonLoads (pyStrip out) = Except.error msg) ∨
      (∃ ms, jsonLoads (pyStrip out) = Except.ok (Json.arr ms) ∧
             ∀ m ∈ ms, conformingMatch m = true)

set_option maxRecDepth 10000

/-! ## Helper lemmas -/

theorem startsWithL_refl : ∀ l : List Char, startsWithL l l = true
  | [] => rfl
  | c :: t => by simp [startsWithL, startsWithL_refl t]

theorem startsWithL_append (b : List Char) :
    ∀ a c : List Char, startsWithL a b = true → startsWithL (a ++ c) b = true := by
  induction b with
  | nil => intro a c _; cases a <;> simp [startsWithL]
  | cons bh bt ih =>
    intro a c h
    cases a with
    | nil => simp [startsWithL] at h
    | cons ah t =>
      by_cases hc : ah = bh
      · simp [startsWithL, hc] at h ⊢
        exact ih t c h
      · simp [startsWithL, hc] at h

theorem containsL_of_prefix (l b : List Char) (h : startsWithL l b = true) :
    containsL l b = true := by
  cases l with
  | nil => simpa [containsL] using h
  | cons c t => simp [containsL, h]

theorem containsL_append_right (a b : List Char) : containsL (a ++ b) b = true := by
  induction a with
  | nil => exact containsL_of_prefix b b (startsWithL_refl b)
  | cons c t ih => simp [containsL, ih]

theorem strContains_append_right (a b : String) : strContains (a ++ b) b = true := by
  show containsL (a ++ b).toList b.toList = true
  have e : (a ++ b).toList = a.toList ++ b.toList := rfl
  rw [e]
  exact containsL_append_right _ _

theorem strContains_of_prefix (a b c : String)
    (h : startsWithL a.toList b.toList = true) : strContains (a ++ c) b = true := by
  show containsL (a ++ c).toList b.toList = true
  have e : (a ++ c).toList = a.toList ++ c.toList := rfl
  rw [e]
  exact containsL_of_prefix _ _ (startsWithL_append _ _ _ h)

theorem stringAppendAssoc (a b c : String) : a ++ b ++ c = a ++ (b ++ c) := by
  cases a; cases b; cases c
  exact congrArg String.mk (List.append_assoc _ _ _)

theorem filterNilOfNone (p : Note → Bool) :
    ∀ l : List Note, (∀ m ∈ l, p m = false) → l.filter p = [] := by
  intro l
  induction l with
  | nil => intro _; rfl
  | cons x t ih =>
    intro h
    have hx : p x = false := h x (by simp)
    have ht := ih (fun m hm => h m (by simp [hm]))
    simp [List.filter, hx, ht]

theorem formatMatch_ok (m : Json) (h : conformingMatch m = true) :
    ∃ s, formatMatch m = Except.ok s := by
  cases m with
  | null => simp [conformingMatch] at h
  | bool b => simp [conformingMatch] at h
  | num l => simp [conformingMatch] at h
  | str s => simp [conformingMatch] at h
  | arr xs => simp [conformingMatch] at h
  | obj kvs =>
    simp only [conformingMatch, Bool.and_eq_true] at h
    obtain ⟨⟨h1, h2⟩, h3⟩ := h
    cases e1 : dictGet kvs "name" with
    | none => rw [e1] at h1; simp at h1
    | some v1 =>
      rw [e1] at h1
      cases v1 <;> simp at h1
      case str s1 =>
        cases e2 : dictGet kvs "folder" with
        | none => rw [e2] at h2; simp at h2
        | some v2 =>
          rw [e2] at h2
          cases v2 <;> simp at h2
          case str s2 =>
            cases e3 : dictGet kvs "preview" with
            | none => rw [e3] at h3; simp at h3
            | some v3 =>
              rw [e3] at h3
              cases v3 <;> simp at h3
              case str s3 =>
                simp only [formatMatch, pySubscript, e1, e2, e3, pySliceTo100]
                exact ⟨_, rfl⟩

theorem formatLoop_ok :
    ∀ ms : List Json, (∀ m ∈ ms, conformingMatch m = true) →
      ∀ acc, ∃ s, formatLoop ms acc = Except.ok s := by
  intro ms
  induction ms with
  | nil => intro _ acc; exact ⟨acc, rfl⟩
  | cons m t ih =>
    intro h acc
    obtain ⟨s1, hs1⟩ := formatMatch_ok m (h m (by simp))
    obtain ⟨s2, hs2⟩ := ih (fun x hx => h x (by simp [hx])) (acc ++ s1)
    exact ⟨s2, by simp [formatLoop, hs1, hs2]⟩

theorem litSplit (s u v w : String) (huv : u ++ v = w) :
    w ++ s = u ++ (v ++ s) := by
  rw [← huv, stringAppendAssoc]

theorem appendLitSplit (B s u v w : String) (huv : u ++ v = w) :
    (B ++ w) ++ s = (B ++ u) ++ (v ++ s) := by
  rw [← huv, ← stringAppendAssoc B u v, stringAppendAssoc (B ++ u) v s]

theorem listNotes_trace (interp : Interp) (args : ArgMap) :
    (callTool interp "list_notes" args).trace = [osaCmd listNotesScript] := by
  have hc : callTool interp "list_notes" args = listNotesBranch interp args := rfl
  rw [hc]
  cases h : interp.applescript listNotesScript <;>
    simp [listNotesBranch, run_applescript, h]

theorem listNotes_success_formula (interp : Interp) (args : ArgMap) (out : String)
    (hrun : interp.applescript listNotesScript = ExecResult.success out) :
    (callTool interp "list_notes" args).result =
      Except.ok [⟨"text", listHeader (getArgD args "folder" "") ++ ("\n" ++ pyStrip out)⟩] := by
  have hc : callTool interp "list_notes" args = listNotesBranch interp args := rfl
  rw [hc]
  simp only [listNotesBranch, run_applescript, hrun]
  by_cases hf : getArgD args "folder" "" = ""
  · simp only [hf, listHeader, ne_eq, not_true_eq_false, if_false, ite_false]
    exact congrArg (fun t => Except.ok [TextContent.mk "text" t])
      (litSplit (pyStrip out) "All notes:" "\n" "All notes:\n" rfl)
  · simp only [hf, listHeader, ne_eq, not_false_iff, if_true, ite_true]
    exact congrArg (fun t => Except.ok [TextContent.mk "text" t])
      (appendLitSplit ("Notes in folder '" ++ getArgD args "folder" "")
        (pyStrip out) "':" "\n" "':\n" rfl)

theorem listNotes_failure_formula (interp : Interp) (args : ArgMap) (rc : Int) (err : String)
    (hrun : interp.applescript listNotesScript = ExecResult.failure rc err) :
    (callTool interp "list_notes" args).result =
      Except.ok [⟨"text", "Error listing notes: " ++ err⟩] := by
  have hc : callTool interp "list_notes" args = listNotesBranch interp args := rfl
  rw [hc]
  simp only [listNotesBranch, run_applescript, hrun]

theorem exceptMatchShape (e : Except PyErr String) (hse : ∃ s, e = Except.ok s) :
    ∃ s : String,
      (match e with
       | Except.error er => Except.error er
       | Except.ok f => Except.ok [(⟨"text", f⟩ : TextContent)]) =
        Except.ok [(⟨"text", s⟩ : TextContent)] := by
  obtain ⟨s, rfl⟩ := hse
  exact ⟨s, rfl⟩

/-! ## The claims -/

/-- Claim C1 (code bug).  The spec's contract says every string parameter is
escaped against the dialect's quoting rules before substitution.  The code
escapes only `create_note`/`edit_note` name and body: `read_note` substitutes
its `name` parameter verbatim, so `read_note` with name `A"B` renders a
script whose quote structure is destroyed (an unterminated string literal,
`asLiteralCount = none`), while the claim's `create_note` instance with name
`A"B` and body `C` is indeed escaped and keeps the same literal structure as
a benign rendering. -/
theorem claim_C1_escaping_code_bug :
    escapeQuotes "A\"B" = "A\\\"B" ∧
    asLiteralCount (createNoteScript "Notes" (escapeQuotes "A\"B") (escapeQuotes "C")) =
      some 5 ∧
    asLiteralCount (createNoteScript "Notes" (escapeQuotes "AB") (escapeQuotes "C")) =
      some 5 ∧
    asLiteralCount (readNoteScript "AB") = some 3 ∧
    asLiteralCount (readNoteScript "A\"B") = none ∧
    (callTool (constInterp (ExecResult.success "")) "read_note"
        [("name", "A\"B")]).trace = [osaCmd (readNoteScript "A\"B")] := by
  refine ⟨rfl, by decide, by decide, by decide, by decide, rfl⟩

/-- Claim C2.  The catalog-listing operation returns exactly five
ToolDescriptors — list_notes, search_notes, read_note, create_note,
edit_note — and for each, the declared parameters and the required subset
match the specification (folder optional; query required; name required;
name and body required with folder optional; name and body required). -/
theorem claim_C2_catalog :
    list_tools.length = 5 ∧
    list_tools.map Tool.name =
      ["list_notes", "search_notes", "read_note", "create_note", "edit_note"] ∧
    list_tools.map (fun t => (t.inputSchema.properties.map ToolParam.name,
        t.inputSchema.required)) =
      [ (["folder"], [])
      , (["query"], ["query"])
      , (["name"], ["name"])
      , (["name", "body", "folder"], ["name", "body"])
      , (["name", "body"], ["name", "body"]) ] :=
  ⟨rfl, rfl, rfl⟩

/-- Claim C3 (counterexample).  With the interpreter failing with stderr
`"boom"`, the `search_notes` invocation returns a single text block that
does NOT contain the captured stderr (its error text is `str(e)`, a function
of command and exit status only), while the same failure under `read_note`
does embed the stderr — refuting "for every tool invocation … an error text
message embedding the captured stderr diagnostics". -/
theorem claim_C3_counterexample :
    ((callTool (constInterp (ExecResult.failure 1 "boom")) "search_notes"
        [("query", "q")]).result.toOption.map
      (fun l => l.any (fun b => strContains b.text "boom"))) = some false ∧
    ((callTool (constInterp (ExecResult.failure 1 "boom")) "read_note"
        [("name", "X")]).result.toOption.map
      (fun l => l.any (fun b => strContains b.text "boom"))) = some true := by
  exact ⟨by decide, by decide⟩

/-- Claim C3 (amended).  On nonzero interpreter exit every invocation
returns, at the protocol level, a single ordinary text block and spawns the
interpreter exactly once (no retry).  For list_notes, read_note, create_note
and edit_note the text embeds the captured stderr; for search_notes the text
is `"Error searching notes: " ++ str(e)`, and `str(e)` of a
CalledProcessError depends only on the command and the return code — it does
not embed the stderr. -/
theorem claim_C3_amended (interp : Interp) (rc : Int) (err : String)
    (hA : ∀ s, interp.applescript s = ExecResult.failure rc err)
    (hJ : ∀ s, interp.jxa s = ExecResult.failure rc err)
    (folder q nm bd f : String) :
    callTool interp "list_notes" [("folder", folder)] =
      { result := Except.ok [⟨"text", "Error listing notes: " ++ err⟩]
        trace := [osaCmd listNotesScript] } ∧
    callTool interp "read_note" [("name", nm)] =
      { result := Except.ok [⟨"text", "Error reading note: " ++ err⟩]
        trace := [osaCmd (readNoteScript nm)] } ∧
    callTool interp "create_note" [("name", nm), ("body", bd), ("folder", f)] =
      { result := Except.ok [⟨"text", "Error creating note: " ++ err⟩]
        trace := [osaCmd (createNoteScript f (escapeQuotes nm) (escapeQuotes bd))] } ∧
    callTool interp "edit_note" [("name", nm), ("body", bd)] =
      { result := Except.ok [⟨"text", "Error editing note: " ++ err⟩]
        trace := [osaCmd (editNoteScript nm (escapeQuotes bd))] } ∧
    strContains ("Error listing notes: " ++ err) err = true ∧
    strContains ("Error reading note: " ++ err) err = true ∧
    strContains ("Error creating note: " ++ err) err = true ∧
    strContains ("Error editing note: " ++ err) err = true ∧
    callTool interp "search_notes" [("query", q)] =
      { result := Except.ok [⟨"text", "Error searching notes: " ++
          pyStrCPE ⟨jxaCmd (searchScript q), rc, err⟩⟩]
        trace := [jxaCmd (searchScript q)] } ∧
    (∀ e1 e2 : CalledProcessError, e1.cmd = e2.cmd → e1.returncode = e2.returncode →
      pyStrCPE e1 = pyStrCPE e2) := by
  refine ⟨?_, ?_, ?_, ?_, strContains_append_right _ _, strContains_append_right _ _,
    strContains_append_right _ _, strContains_append_right _ _, ?_, ?_⟩
  · have hc : callTool interp "list_notes" [("folder", folder)] =
        listNotesBranch interp [("folder", folder)] := rfl
    rw [hc]
    simp [listNotesBranch, run_applescript, hA]
  · have hc : callTool interp "read_note" [("name", nm)] = readNoteBranch interp nm := rfl
    rw [hc]
    simp [readNoteBranch, run_applescript, hA]
  · have hc : callTool interp "create_note" [("name", nm), ("body", bd), ("folder", f)] =
        createNoteBranch interp nm bd f := rfl
    rw [hc]
    simp [createNoteBranch, run_applescript, hA]
  · have hc : callTool interp "edit_note" [("name", nm), ("body", bd)] =
        editNoteBranch interp nm bd := rfl
    rw [hc]
    simp [editNoteBranch, run_applescript, hA]
  · have hc : callTool interp "search_notes" [("query", q)] = searchBranch interp q := rfl
    rw [hc]
    simp [searchBranch, searchTryBody, run_jxa, hJ]
  · intro e1 e2 hcmd hrc
    simp [pyStrCPE, hcmd, hrc]

/-- Claim C3 (witness).  A concrete failing `read_note` call: single text
block embedding the stderr, one spawned process. -/
theorem claim_C3_witness :
    (callTool (constInterp (ExecResult.failure 1 "boom")) "read_note"
        [("name", "X")]).result = Except.ok [⟨"text", "Error reading note: boom"⟩] ∧
    (callTool (constInterp (ExecResult.failure 1 "boom")) "read_note"
        [("name", "X")]).trace.length = 1 := by
  have h := claim_C3_amended (constInterp (ExecResult.failure 1 "boom")) 1 "boom"
    (fun s => rfl) (fun s => rfl) "" "q" "X" "B" "Notes"
  constructor
  · rw [h.2.1]
    rfl
  · rw [h.2.1]
    rfl

/-- Claim C4.  For `list_notes` the optional folder parameter only changes
the header text: the executed script is the same fixed `listNotesScript` for
every arguments mapping, and on a fixed interpreter output the returned text
is the folder-dependent header followed by the same `"\n" ++ stripped
stdout` body for every value of folder. -/
theorem claim_C4_folder_only_header (interp : Interp) (out : String)
    (hrun : interp.applescript listNotesScript = ExecResult.success out) :
    (∀ args : ArgMap,
      (callTool interp "list_notes" args).trace = [osaCmd listNotesScript]) ∧
    (∀ args : ArgMap, (callTool interp "list_notes" args).result =
      Except.ok [⟨"text",
        listHeader (getArgD args "folder" "") ++ ("\n" ++ pyStrip out)⟩]) :=
  ⟨fun args => listNotes_trace interp args,
   fun args => listNotes_success_formula interp args out hrun⟩

/-- Claim C4 (witness).  A concrete output: same body below the header with
and without a folder argument, same executed script. -/
theorem claim_C4_witness :
    (callTool (constInterp (ExecResult.success "A |name|:B")) "list_notes"
        [("folder", "Work")]).result =
      Except.ok [⟨"text", listHeader "Work" ++ ("\n" ++ pyStrip "A |name|:B")⟩] ∧
    (callTool (constInterp (ExecResult.success "A |name|:B")) "list_notes" []).result =
      Except.ok [⟨"text", listHeader "" ++ ("\n" ++ pyStrip "A |name|:B")⟩] ∧
    (callTool (constInterp (ExecResult.success "A |name|:B")) "list_notes"
        [("folder", "Work")]).trace = [osaCmd listNotesScript] := by
  have h := claim_C4_folder_only_header
    (constInterp (ExecResult.success "A |name|:B")) "A |name|:B" rfl
  exact ⟨h.2 [("folder", "Work")], h.2 [], h.1 [("folder", "Work")]⟩

/-- Claim C5.  When the interpreter succeeds and the stripped output is
empty or decodes to the empty JSON array, `search_notes` returns the literal
no-results message (`"No notes found matching '<query>'"`) as a single text
block — never an empty structured result and never a parse error. -/
theorem claim_C5_empty_search (interp : Interp) (q out : String)
    (hrun : interp.jxa (searchScript q) = ExecResult.success out)
    (hempty : pyStrip out = "" ∨ jsonLoads (pyStrip out) = Except.ok (Json.arr [])) :
    callTool interp "search_notes" [("query", q)] =
      { result := Except.ok [⟨"text", "No notes found matching '" ++ q ++ "'"⟩]
        trace := [jxaCmd (searchScript q)] } := by
  have hc : callTool interp "search_notes" [("query", q)] = searchBranch interp q := rfl
  rw [hc]
  by_cases hemp : pyStrip out = ""
  · simp [searchBranch, searchTryBody, run_jxa, hrun, hemp, pyTruthy]
  · rcases hempty with h0 | h1
    · exact absurd h0 hemp
    · simp [searchBranch, searchTryBody, run_jxa, hrun, hemp, h1, pyTruthy,
        Except.mapError, Except.map]

/-- Claim C5 (witness).  The spec's concrete instance: query
`zzz_no_such_token` against an interpreter returning `[]`. -/
theorem claim_C5_witness :
    callTool (constInterp (ExecResult.success "[]")) "search_notes"
        [("query", "zzz_no_such_token")] =
      { result := Except.ok [⟨"text", "No notes found matching 'zzz_no_such_token'"⟩]
        trace := [jxaCmd (searchScript "zzz_no_such_token")] } :=
  claim_C5_empty_search (constInterp (ExecResult.success "[]")) "zzz_no_such_token"
    "[]" rfl (Or.inr rfl)

/-- Claim C6.  Under the spec-modelled create-note script semantics
(`runCreateNoteScript`): when the target folder does not exist in the fixed
account the script fails, the store is unchanged (no folder/note created)
and the invocation returns the ScriptExecutionError-shaped text
`"Error creating note: <stderr>"` — never a silent success; when the folder
exists, the invocation returns the created note's resolved name. -/
theorem claim_C6_create_note_folder (store : NotesStore) (interp : Interp)
    (f n b : String)
    (hlink : interp.applescript (createNoteScript f (escapeQuotes n) (escapeQuotes b)) =
      (runCreateNoteScript store f n b).1) :
    (f ∉ store.folders →
      (runCreateNoteScript store f n b).2 = store ∧
      callTool interp "create_note" [("name", n), ("body", b), ("folder", f)] =
        { result := Except.ok [⟨"text",
            "Error creating note: " ++ createFolderMissingDiag f⟩]
          trace := [osaCmd (createNoteScript f (escapeQuotes n) (escapeQuotes b))] }) ∧
    (f ∈ store.folders →
      callTool interp "create_note" [("name", n), ("body", b), ("folder", f)] =
        { result := Except.ok [⟨"text", "Successfully created note: " ++ pyStrip n⟩]
          trace := [osaCmd (createNoteScript f (escapeQuotes n) (escapeQuotes b))] }) := by
  have hc : callTool interp "create_note" [("name", n), ("body", b), ("folder", f)] =
      createNoteBranch interp n b f := rfl
  constructor
  · intro hmem
    rw [runCreateNoteScript, if_neg hmem] at hlink
    refine ⟨by rw [runCreateNoteScript, if_neg hmem], ?_⟩
    rw [hc]
    simp [createNoteBranch, run_applescript, hlink]
  · intro hmem
    rw [runCreateNoteScript, if_pos hmem] at hlink
    rw [hc]
    simp [createNoteBranch, run_applescript, hlink]

/-- Claim C6 (witness).  The spec's concrete instance
`create_note("T","B","NonexistentFolder")` against a store holding only the
folder `Notes`: error text surfaced, store untouched. -/
theorem claim_C6_witness :
    (runCreateNoteScript ⟨["Notes"], []⟩ "NonexistentFolder" "T" "B").2 =
      (⟨["Notes"], []⟩ : NotesStore) ∧
    callTool
        (constInterp ((runCreateNoteScript ⟨["Notes"], []⟩ "NonexistentFolder" "T" "B").1))
        "create_note" [("name", "T"), ("body", "B"), ("folder", "NonexistentFolder")] =
      { result := Except.ok [⟨"text",
          "Error creating note: " ++ createFolderMissingDiag "NonexistentFolder"⟩]
        trace := [osaCmd (createNoteScript "NonexistentFolder"
          (escapeQuotes "T") (escapeQuotes "B"))] } :=
  claim_C6_create_note_folder ⟨["Notes"], []⟩
    (constInterp ((runCreateNoteScript ⟨["Notes"], []⟩ "NonexistentFolder" "T" "B").1))
    "NonexistentFolder" "T" "B" rfl |>.1 (by simp)

/-- Claim C7.  Under the spec-modelled read-note script semantics
(`runReadNoteScript`): the lookup is exact-name, the first matching note
wins when names collide, and when no note matches the invocation returns
ordinary text content containing the sentinel `"Note not found"` (the call
succeeds, it is not an error). -/
theorem claim_C7_read_note_lookup (notes : List Note) (nm : String) (interp : Interp)
    (hlink : interp.applescript (readNoteScript nm) = runReadNoteScript notes nm) :
    (notes.filter (fun x => x.name = nm) = [] →
      callTool interp "read_note" [("name", nm)] =
        { result := Except.ok [⟨"text", "Note: " ++ nm ++ "\n\n" ++ "Note not found"⟩]
          trace := [osaCmd (readNoteScript nm)] }) ∧
    (∀ pre n post, notes = pre ++ n :: post → n.name = nm →
      (∀ m ∈ pre, ¬(m.name = nm)) →
      callTool interp "read_note" [("name", nm)] =
        { result := Except.ok [⟨"text", "Note: " ++ nm ++ "\n\n" ++ pyStrip n.body⟩]
          trace := [osaCmd (readNoteScript nm)] }) := by
  have hc : callTool interp "read_note" [("name", nm)] = readNoteBranch interp nm := rfl
  constructor
  · intro hfil
    rw [runReadNoteScript, hfil] at hlink
    rw [hc]
    simp [readNoteBranch, run_applescript, hlink]
    rfl
  · intro pre n post hsplit hn hpre
    have hfil : notes.filter (fun x => x.name = nm) =
        n :: post.filter (fun x => x.name = nm) := by
      rw [hsplit, List.filter_append,
        filterNilOfNone _ pre (fun m hm => by simp [hpre m hm])]
      simp [List.filter, hn]
    rw [runReadNoteScript, hfil] at hlink
    rw [hc]
    simp [readNoteBranch, run_applescript, hlink]

/-- Claim C7 (witness).  Two notes named `X`: the first one's body is
returned. -/
theorem claim_C7_witness :
    callTool (constInterp (runReadNoteScript [⟨"X", "b1"⟩, ⟨"X", "b2"⟩] "X"))
        "read_note" [("name", "X")] =
      { result := Except.ok [⟨"text", "Note: X\n\nb1"⟩]
        trace := [osaCmd (readNoteScript "X")] } := by
  have h := (claim_C7_read_note_lookup [⟨"X", "b1"⟩, ⟨"X", "b2"⟩] "X"
    (constInterp (runReadNoteScript [⟨"X", "b1"⟩, ⟨"X", "b2"⟩] "X")) rfl).2
    [] ⟨"X", "b1"⟩ [⟨"X", "b2"⟩] rfl rfl (fun m hm => nomatch hm)
  exact h

/-- Claim C8.  For every invocation whose tool name is not one of the five
catalog names, the invocation returns a text block containing
`"Unknown tool"`, spawns no process, and raises no exception (the result is
`Except.ok`, not a transport-level fault). -/
theorem claim_C8_unknown_tool (interp : Interp) (name : String) (args : ArgMap)
    (h : ¬(name = "list_notes" ∨ name = "search_notes" ∨ name = "read_note" ∨
      name = "create_note" ∨ name = "edit_note")) :
    callTool interp name args =
      { result := Except.ok [⟨"text", "Unknown tool: " ++ name⟩], trace := [] } ∧
    strContains ("Unknown tool: " ++ name) "Unknown tool" = true := by
  push_neg at h
  obtain ⟨h1, h2, h3, h4, h5⟩ := h
  constructor
  · simp [callTool, h1, h2, h3, h4, h5]
  · exact strContains_of_prefix "Unknown tool: " "Unknown tool" name (by decide)

/-- Claim C8 (witness).  A concrete unknown tool name. -/
theorem claim_C8_witness :
    callTool (constInterp (ExecResult.success "")) "frobnicate" [] =
      { result := Except.ok [⟨"text", "Unknown tool: frobnicate"⟩], trace := [] } ∧
    strContains ("Unknown tool: " ++ "frobnicate") "Unknown tool" = true := by
  have h := claim_C8_unknown_tool (constInterp (ExecResult.success "")) "frobnicate" []
    (by decide)
  exact ⟨h.1, h.2⟩

/-- Claim C9 (counterexample).  `search_notes` invoked with an empty
arguments mapping raises `KeyError("query")` — the invocation produces no
content blocks at all, refuting "any arguments … the InvocationResult is a
sequence of exactly one text content block". -/
theorem claim_C9_counterexample :
    (callTool (constInterp (ExecResult.success "")) "search_notes" []).result =
      Except.error (PyErr.keyError "query") ∧
    (callTool (constInterp (ExecResult.success "")) "search_notes" []).result.toOption =
      none :=
  ⟨rfl, rfl⟩

/-- Claim C9 (amended).  For every invocation whose arguments contain the
tool's required parameters and, for `search_notes`, whose interpreter
interaction follows the external contract (failure, empty output, an output
that fails to decode, or a JSON array of string-valued match records), the
InvocationResult is a sequence of exactly one text content block — for any
tool name, known or unknown, on both the success and the error path. -/
theorem claim_C9_amended (interp : Interp) (name : String) (args : ArgMap)
    (hreq : requiredPresent name args)
    (hsearch : name = "search_notes" → ∀ q, getArg args "query" = some q →
      searchOutOK (interp.jxa (searchScript q))) :
    ∃ b : TextContent, (callTool interp name args).result = Except.ok [b] := by
  obtain ⟨hq, hr, hcn, hen⟩ := hreq
  by_cases h1 : name = "list_notes"
  · subst h1
    cases h : interp.applescript listNotesScript with
    | success out => exact ⟨_, listNotes_success_formula interp args out h⟩
    | failure rc err => exact ⟨_, listNotes_failure_formula interp args rc err h⟩
  by_cases h2 : name = "search_notes"
  · subst h2
    cases hga : getArg args "query" with
    | none => have := hq rfl; rw [hga] at this; simp at this
    | some q =>
      have hso := hsearch rfl q hga
      have hcall : callTool interp "search_notes" args = searchBranch interp q := by
        simp [callTool, hga]
      rw [hcall]
      cases hj : interp.jxa (searchScript q) with
      | failure rc err =>
        refine ⟨⟨"text", "Error searching notes: " ++
          pyStrCPE ⟨jxaCmd (searchScript q), rc, err⟩⟩, ?_⟩
        simp [searchBranch, searchTryBody, run_jxa, hj]
      | success out =>
        rw [hj] at hso
        simp only [searchOutOK] at hso
        by_cases hemp : pyStrip out = ""
        · refine ⟨⟨"text", "No notes found matching '" ++ q ++ "'"⟩, ?_⟩
          simp [searchBranch, searchTryBody, run_jxa, hj, hemp, pyTruthy]
        · rcases hso with h0 | ⟨msg, hmsg⟩ | ⟨ms, hms, hconf⟩
          · exact absurd h0 hemp
          · refine ⟨⟨"text", "Error searching notes: " ++ msg⟩, ?_⟩
            simp [searchBranch, searchTryBody, run_jxa, hj, hemp, hmsg,
              Except.mapError, Except.map]
          · cases ms with
            | nil =>
              refine ⟨⟨"text", "No notes found matching '" ++ q ++ "'"⟩, ?_⟩
              simp [searchBranch, searchTryBody, run_jxa, hj, hemp, hms, pyTruthy,
                Except.mapError, Except.map]
            | cons m0 mt =>
              have hsb : ∃ s : String, searchTryBody interp q =
                  Except.ok [(⟨"text", s⟩ : TextContent)] := by
                unfold searchTryBody run_jxa
                rw [hj]
                simp only [hemp, hms, pyTruthy, pyLen, pyIter,
                  Except.mapError, Except.map, ne_eq, not_false_iff, if_true, ite_true,
                  List.isEmpty_cons, Bool.not_false, Bool.not_eq_false, if_false,
                  ite_false]
                exact exceptMatchShape _ (formatLoop_ok _ hconf _)
              obtain ⟨s, hs⟩ := hsb
              exact ⟨⟨"text", s⟩, by simp [searchBranch, hs]⟩
  by_cases h3 : name = "read_note"
  · subst h3
    cases hga : getArg args "name" with
    | none => have := hr rfl; rw [hga] at this; simp at this
    | some nm =>
      have hcall : callTool interp "read_note" args = readNoteBranch interp nm := by
        simp [callTool, hga]
      rw [hcall]
      cases h : interp.applescript (readNoteScript nm) with
      | success out =>
        refine ⟨⟨"text", "Note: " ++ nm ++ "\n\n" ++ pyStrip out⟩, ?_⟩
        simp [readNoteBranch, run_applescript, h]
      | failure rc err =>
        refine ⟨⟨"text", "Error reading note: " ++ err⟩, ?_⟩
        simp [readNoteBranch, run_applescript, h]
  by_cases h4 : name = "create_note"
  · subst h4
    cases hga : getArg args "name" with
    | none => have := (hcn rfl).1; rw [hga] at this; simp at this
    | some nm =>
      cases hgb : getArg args "body" with
      | none => have := (hcn rfl).2; rw [hgb] at this; simp at this
      | some bd =>
        have hcall : callTool interp "create_note" args =
            createNoteBranch interp nm bd (getArgD args "folder" "Notes") := by
          simp [callTool, hga, hgb]
        rw [hcall]
        cases h : interp.applescript (createNoteScript (getArgD args "folder" "Notes")
            (escapeQuotes nm) (escapeQuotes bd)) with
        | success out =>
          refine ⟨⟨"text", "Successfully created note: " ++ pyStrip out⟩, ?_⟩
          simp [createNoteBranch, run_applescript, h]
        | failure rc err =>
          refine ⟨⟨"text", "Error creating note: " ++ err⟩, ?_⟩
          simp [createNoteBranch, run_applescript, h]
  by_cases h5 : name = "edit_note"
  · subst h5
    cases hga : getArg args "name" with
    | none => have := (hen rfl).1; rw [hga] at this; simp at this
    | some nm =>
      cases hgb : getArg args "body" with
      | none => have := (hen rfl).2; rw [hgb] at this; simp at this
      | some bd =>
        have hcall : callTool interp "edit_note" args = editNoteBranch interp nm bd := by
          simp [callTool, hga, hgb]
        rw [hcall]
        cases h : interp.applescript (editNoteScript nm (escapeQuotes bd)) with
        | success out =>
          refine ⟨⟨"text", pyStrip out⟩, ?_⟩
          simp [editNoteBranch, run_applescript, h]
        | failure rc err =>
          refine ⟨⟨"text", "Error editing note: " ++ err⟩, ?_⟩
          simp [editNoteBranch, run_applescript, h]
  · refine ⟨⟨"text", "Unknown tool: " ++ name⟩, ?_⟩
    simp [callTool, h1, h2, h3, h4, h5]

/-- Claim C9 (witness).  A concrete well-formed invocation. -/
theorem claim_C9_witness :
    ∃ b : TextContent,
      (callTool (constInterp (ExecResult.success "")) "list_notes" []).result =
        Except.ok [b] :=
  claim_C9_amended (constInterp (ExecResult.success "")) "list_notes" []
    ⟨fun h => absurd h (by decide), fun h => absurd h (by decide),
     fun h => absurd h (by decide), fun h => absurd h (by decide)⟩
    (fun h => absurd h (by decide))

/-- Claim C10.  The `list_notes` record-splitting of the interpreter output
is dead code: the branch always returns a single text block (never a raised
`ParseError`); on success the text is exactly the header followed by a
newline and the raw stripped stdout, for every interpreter stdout; on
nonzero exit it is the ScriptExecutionError text. -/
theorem claim_C10_list_notes_no_parse (interp : Interp) (args : ArgMap) :
    (∃ t : String, (callTool interp "list_notes" args).result = Except.ok [⟨"text", t⟩]) ∧
    (∀ out : String, interp.applescript listNotesScript = ExecResult.success out →
      (callTool interp "list_notes" args).result =
        Except.ok [⟨"text",
          listHeader (getArgD args "folder" "") ++ ("\n" ++ pyStrip out)⟩]) ∧
    (∀ (rc : Int) (err : String),
      interp.applescript listNotesScript = ExecResult.failure rc err →
      (callTool interp "list_notes" args).result =
        Except.ok [⟨"text", "Error listing notes: " ++ err⟩]) := by
  refine ⟨?_, fun out h => listNotes_success_formula interp args out h,
    fun rc err h => listNotes_failure_formula interp args rc err h⟩
  cases h : interp.applescript listNotesScript with
  | success out => exact ⟨_, listNotes_success_formula interp args out h⟩
  | failure rc err => exact ⟨_, listNotes_failure_formula interp args rc err h⟩

/-- Claim C10 (witness).  The failure side on a concrete interpreter. -/
theorem claim_C10_witness :
    (callTool (constInterp (ExecResult.failure 1 "boom")) "list_notes" []).result =
      Except.ok [⟨"text", "Error listing notes: boom"⟩] :=
  (claim_C10_list_notes_no_parse (constInterp (ExecResult.failure 1 "boom")) []).2.2
    1 "boom" rfl
